import Mathlib

/-
  Verification development for the postyl_backend integrations package
  (Go HTTP client wrappers for social-media APIs).

  The Go code is shallowly embedded: each wrapper becomes a pure Lean
  function from its arguments and an explicit "network oracle" (the
  sequence of HTTP outcomes the remote side produces) to the wrapper's
  result together with the list of HTTP requests it issued.  JSON
  decoding performed by the Go standard library is part of the
  environment, so each oracle outcome carries both the raw response
  (status code and body string) and the parsed view the code extracts
  from it.
-/

set_option linter.unusedVariables false

namespace Postyl

/-- a raw HTTP response as seen by the Go wrappers: numeric status code
and body text. -/
structure HttpResponse where
  status : Nat
  body : String
deriving DecidableEq, Repr

/-- an HTTP request as built by the non-Instagram wrappers: method, URL and
the headers explicitly set by the code (`req.Header.Set`/`Add`). -/
structure HttpRequest where
  method : String
  url : String
  headers : List (String × String)
deriving DecidableEq, Repr

/-- an Instagram Graph API request: the code passes everything (including
the access token) as query parameters built with `url.Values.Add`, and
sets no headers; `params` keeps the parameters in the order the code adds
them. -/
structure IgRequest where
  method : String
  path : String
  params : List (String × String)
deriving DecidableEq, Repr

/-- the proposition that `sub` occurs contiguously inside `hay` (used to
state "the error message contains the status code / body text"). -/
def containsStr (hay sub : String) : Prop := sub.data <:+: hay.data

instance (hay sub : String) : Decidable (containsStr hay sub) :=
  List.decidableInfix sub.data hay.data

theorem containsStr_append_middle (a sub b : String) :
    containsStr (a ++ sub ++ b) sub := by
  refine ⟨a.data, b.data, ?_⟩
  simp [String.data_append]

/-! ## Instagram media-processing poll loop

`waitForMediaProcessing` (src/integrations/instagram.go:355-391): a loop of
at most 30 iterations; each iteration sleeps 2 seconds, issues a GET to the
status URL, reads the body, JSON-unmarshals it, extracts the string field
`status_code`, and stops on "FINISHED" (success), "ERROR" (failure wrapping
the body), a transport error, an unmarshal error, or a missing/non-string
status field; after 30 non-terminal responses it reports a timeout. -/

/-- the outcome of one poll attempt, as the environment presents it to the
loop: either the transport layer failed (`c.HTTPClient.Do` returned an
error), or a response arrived with HTTP status `httpStatus` and body
`body`, where `jsonErr` is the error of `json.Unmarshal` on the body (none
when it parses) and `statusField` is the parsed map's `status_code` entry
when it exists and is a string. -/
inductive PollOutcome where
  | transportErr (msg : String)
  | response (httpStatus : Nat) (body : String)
      (jsonErr : Option String) (statusField : Option String)
deriving DecidableEq, Repr

/-- the result of the poll loop: `ok` models the `nil` error return of the
Go helper, `error msg` an error return with message `msg`. -/
inductive WaitResult where
  | ok
  | error (msg : String)
deriving DecidableEq, Repr

/-- what an execution of the poll loop did: its result, how many poll
attempts (HTTP GETs) it performed, and how many seconds it spent in the
2-second sleeps (the code sleeps once before every attempt). -/
structure WaitTrace where
  result : WaitResult
  polls : Nat
  slept : Nat
deriving DecidableEq, Repr

/-- one unfolding step of waitForMediaProcessing: `i` is the index of the
next poll attempt and `fuel` the number of loop iterations remaining
(initially 30 = maxAttempts); running out of fuel is the
"media processing timed out" return after the loop. -/
def waitPoll (polls : Nat → PollOutcome) : Nat → Nat → WaitTrace
  | _, 0 => ⟨.error "media processing timed out", 0, 0⟩
  | i, fuel + 1 =>
    match polls i with
    | .transportErr e => ⟨.error e, 1, 2⟩
    | .response _ body jsonErr statusField =>
      match jsonErr with
      | some e => ⟨.error e, 1, 2⟩
      | none =>
        match statusField with
        | none => ⟨.error "invalid status response", 1, 2⟩
        | some s =>
          if s = "FINISHED" then ⟨.ok, 1, 2⟩
          else if s = "ERROR" then
            ⟨.error ("media processing failed: " ++ body), 1, 2⟩
          else
            let t := waitPoll polls (i + 1) fuel
            ⟨t.result, t.polls + 1, t.slept + 2⟩

/-- `InstagramClient.waitForMediaProcessing` with `maxAttempts = 30`,
abstracted over the sequence of poll outcomes. -/
def waitForMediaProcessing (polls : Nat → PollOutcome) : WaitTrace :=
  waitPoll polls 0 30

/-- a poll outcome that the loop treats as "keep waiting": a response whose
body unmarshals and whose `status_code` is a string other than FINISHED and
ERROR. -/
def nonTerminalResponse : PollOutcome → Bool
  | .response _ _ none (some s) => !(s = "FINISHED") && !(s = "ERROR")
  | _ => false

/-- a poll outcome that carries a terminal `status_code` ("FINISHED" or
"ERROR"), the reading used by the timeout claim. -/
def carriesTerminalStatus : PollOutcome → Bool
  | .response _ _ _ (some s) => s = "FINISHED" || s = "ERROR"
  | _ => false

theorem waitPoll_timeout (polls : Nat → PollOutcome) :
    ∀ fuel i, (∀ j, j < fuel → nonTerminalResponse (polls (i + j)) = true) →
      waitPoll polls i fuel = ⟨.error "media processing timed out", fuel, 2 * fuel⟩ := by
  intro fuel
  induction fuel with
  | zero => intro i _; rfl
  | succ n ih =>
    intro i h
    have h0 : nonTerminalResponse (polls i) = true := by
      simpa using h 0 (Nat.succ_pos n)
    have hrest : ∀ j, j < n → nonTerminalResponse (polls (i + 1 + j)) = true := by
      intro j hj
      have := h (j + 1) (by omega)
      simpa [Nat.add_assoc, Nat.add_comm 1 j] using this
    rcases hp : polls i with e | ⟨st, body, jsonErr, statusField⟩
    · rw [hp] at h0; simp [nonTerminalResponse] at h0
    · rw [hp] at h0
      match jsonErr, statusField with
      | some e, _ => simp [nonTerminalResponse] at h0
      | none, none => simp [nonTerminalResponse] at h0
      | none, some s =>
        simp only [nonTerminalResponse, Bool.and_eq_true, Bool.not_eq_true',
          decide_eq_false_iff_not] at h0
        have hsF : ¬ s = "FINISHED" := by
          intro hs; rw [hs] at h0; simp at h0
        have hsE : ¬ s = "ERROR" := by
          intro hs; rw [hs] at h0; simp at h0
        rw [waitPoll, hp]
        simp only [hsF, hsE, if_false]
        rw [ih (i + 1) hrest]
        simp [Nat.mul_succ, Nat.mul_comm]

theorem waitPoll_skip (polls : Nat → PollOutcome) :
    ∀ k fuel i, k ≤ fuel →
      (∀ j, j < k → nonTerminalResponse (polls (i + j)) = true) →
      waitPoll polls i fuel =
        ⟨(waitPoll polls (i + k) (fuel - k)).result,
          (waitPoll polls (i + k) (fuel - k)).polls + k,
          (waitPoll polls (i + k) (fuel - k)).slept + 2 * k⟩ := by
  intro k
  induction k with
  | zero => intro fuel i _ _; simp
  | succ m ih =>
    intro fuel i hk h
    obtain ⟨fuel', rfl⟩ : ∃ f, fuel = f + 1 := ⟨fuel - 1, by omega⟩
    have h0 : nonTerminalResponse (polls i) = true := by
      simpa using h 0 (Nat.succ_pos m)
    have hrest : ∀ j, j < m → nonTerminalResponse (polls (i + 1 + j)) = true := by
      intro j hj
      have := h (j + 1) (by omega)
      simpa [Nat.add_assoc, Nat.add_comm 1 j] using this
    rcases hp : polls i with e | ⟨st, body, jsonErr, statusField⟩
    · rw [hp] at h0; simp [nonTerminalResponse] at h0
    · rw [hp] at h0
      match jsonErr, statusField with
      | some e, _ => simp [nonTerminalResponse] at h0
      | none, none => simp [nonTerminalResponse] at h0
      | none, some s =>
        simp only [nonTerminalResponse, Bool.and_eq_true, Bool.not_eq_true',
          decide_eq_false_iff_not] at h0
        have hsF : ¬ s = "FINISHED" := by
          intro hs; rw [hs] at h0; simp at h0
        have hsE : ¬ s = "ERROR" := by
          intro hs; rw [hs] at h0; simp at h0
        rw [waitPoll, hp]
        simp only [hsF, hsE, if_false]
        rw [ih fuel' (i + 1) (by omega) hrest]
        have hidx : i + 1 + m = i + (m + 1) := by omega
        have hfuel : fuel' - m = fuel' + 1 - (m + 1) := by omega
        rw [hidx, hfuel]
        simp only [WaitTrace.mk.injEq, true_and]
        exact ⟨by omega, by omega⟩

theorem containsStr_suffix (a s : String) : containsStr (a ++ s) s :=
  ⟨a.data, [], by simp [String.data_append]⟩

theorem waitPoll_finished (polls : Nat → PollOutcome) (i fuel : Nat) (st : Nat) (b : String)
    (hp : polls i = PollOutcome.response st b none (some "FINISHED")) :
    waitPoll polls i (fuel + 1) = ⟨.ok, 1, 2⟩ := by
  rw [waitPoll, hp]
  simp

theorem waitPoll_error (polls : Nat → PollOutcome) (i fuel : Nat) (st : Nat) (b : String)
    (hp : polls i = PollOutcome.response st b none (some "ERROR")) :
    waitPoll polls i (fuel + 1) = ⟨.error ("media processing failed: " ++ b), 1, 2⟩ := by
  rw [waitPoll, hp]
  simp

/-- C1 (counterexample). The claim quantifies over executions "in which no
polled response ever carries a status_code of FINISHED or ERROR" and
asserts exactly 30 poll attempts ending in the timeout error.  A response
whose body is the empty JSON object carries no terminal status_code, yet
the helper returns "invalid status response" after a single attempt. -/
theorem C1_counterexample :
    (∀ i : Nat, carriesTerminalStatus
        ((fun _ => PollOutcome.response 200 "\x7b\x7d" none none) i) = false)
    ∧ waitForMediaProcessing (fun _ => PollOutcome.response 200 "\x7b\x7d" none none)
        = ⟨.error "invalid status response", 1, 2⟩
    ∧ (waitForMediaProcessing (fun _ => PollOutcome.response 200 "\x7b\x7d" none none)).polls ≠ 30
    ∧ (waitForMediaProcessing (fun _ => PollOutcome.response 200 "\x7b\x7d" none none)).result
        ≠ WaitResult.error "media processing timed out" :=
  ⟨fun _ => rfl, rfl, by decide, by decide⟩

/-- C1 (amended). If every one of the 30 polled responses unmarshals and
carries a string status_code that is neither "FINISHED" nor "ERROR", then
waitForMediaProcessing performs exactly 30 poll attempts, sleeps 2 seconds
before each of them (60 seconds in total), and returns the
"media processing timed out" error. -/
theorem C1_poll_timeout_after_30 (polls : Nat → PollOutcome)
    (h : ∀ i, i < 30 → nonTerminalResponse (polls i) = true) :
    waitForMediaProcessing polls = ⟨.error "media processing timed out", 30, 60⟩ := by
  have := waitPoll_timeout polls 30 0 (fun j hj => by simpa using h j hj)
  simpa [waitForMediaProcessing] using this

/-- C1 (witness): a run in which every response reports IN_PROGRESS indeed
times out after 30 attempts and 60 seconds of sleeping. -/
theorem C1_poll_timeout_witness :
    waitForMediaProcessing (fun _ => PollOutcome.response 200 "w" none (some "IN_PROGRESS"))
      = ⟨.error "media processing timed out", 30, 60⟩ :=
  C1_poll_timeout_after_30 _ (fun _ _ => by decide)

/-- C2. When the first k responses are non-terminal and response k (k < 30,
so it is actually polled) is terminal, the loop stops at attempt k+1: it
returns success (the nil error) on "FINISHED", and on "ERROR" it returns
the error "media processing failed: <body>", whose message contains the
response body; no further poll attempts are issued (the trace records
exactly k+1 polls). -/
theorem C2_first_terminal_stops (polls : Nat → PollOutcome) (k : Nat) (hk : k < 30)
    (hpre : ∀ i, i < k → nonTerminalResponse (polls i) = true) :
    (∀ st b, polls k = PollOutcome.response st b none (some "FINISHED") →
        waitForMediaProcessing polls = ⟨.ok, k + 1, 2 * (k + 1)⟩) ∧
    (∀ st b, polls k = PollOutcome.response st b none (some "ERROR") →
        waitForMediaProcessing polls
          = ⟨.error ("media processing failed: " ++ b), k + 1, 2 * (k + 1)⟩ ∧
        containsStr ("media processing failed: " ++ b) b) := by
  have hskip := waitPoll_skip polls k 30 0 (le_of_lt hk)
    (fun j hj => by simpa using hpre j hj)
  simp only [Nat.zero_add] at hskip
  obtain ⟨m, hm⟩ : ∃ m, 30 - k = m + 1 := ⟨30 - k - 1, by omega⟩
  rw [hm] at hskip
  constructor
  · intro st b hp
    rw [waitForMediaProcessing, hskip, waitPoll_finished polls k m st b hp]
    simp only [WaitTrace.mk.injEq, true_and]
    exact ⟨by omega, by omega⟩
  · intro st b hp
    refine ⟨?_, containsStr_suffix _ _⟩
    rw [waitForMediaProcessing, hskip, waitPoll_error polls k m st b hp]
    simp only [WaitTrace.mk.injEq, true_and]
    exact ⟨by omega, by omega⟩

/-- C2 (witness): with one IN_PROGRESS response followed by an ERROR
response with body "oops", the loop stops after 2 attempts with the error
wrapping the body. -/
theorem C2_first_terminal_witness :
    waitForMediaProcessing
        (fun i => if i = 0 then PollOutcome.response 200 "w" none (some "IN_PROGRESS")
                  else PollOutcome.response 200 "oops" none (some "ERROR"))
      = ⟨.error ("media processing failed: " ++ "oops"), 2, 4⟩ ∧
    containsStr ("media processing failed: " ++ "oops") "oops" := by
  have h := (C2_first_terminal_stops
      (fun i => if i = 0 then PollOutcome.response 200 "w" none (some "IN_PROGRESS")
                else PollOutcome.response 200 "oops" none (some "ERROR"))
      1 (by omega)
      (fun i hi => by
        have h0 : i = 0 := by omega
        subst h0; decide)).2 200 "oops" (by decide)
  simpa using h

/-! ## AutomatedTweeter (src/integrations/twitter.go:235-285)

One tick of the `Start` loop reads `at.CurrentIndex`, resets it to 0 when
it is >= len(at.Content), reads `at.Content[at.CurrentIndex]` (a panic
when out of bounds), posts it, and increments the index.  The loop runs
until the `select` takes the closed-StopChan case; Go's `select` picks
uniformly among ready cases, so a pending ticker fire may still be chosen
after `Stop` has closed the channel. -/

/-- the index the tick actually reads: `CurrentIndex` after the reset
`if at.CurrentIndex >= len(at.Content) { at.CurrentIndex = 0 }`. -/
def tickIndex (idx : Nat) (content : List String) : Nat :=
  if content.length ≤ idx then 0 else idx

/-- one ticker fire of `AutomatedTweeter.Start`: returns the posted text
and the next index, or `none` when `at.Content[at.CurrentIndex]` is out of
bounds (the Go code panics there). -/
def tick (idx : Nat) (content : List String) : Option (String × Nat) :=
  match content.get? (tickIndex idx content) with
  | some t => some (t, tickIndex idx content + 1)
  | none => none

/-- the texts posted by `n` consecutive ticks starting from index `idx`
(stopping early if an access panics). -/
def runTicks (content : List String) : Nat → Nat → List String
  | _, 0 => []
  | idx, n + 1 =>
    match tick idx content with
    | some (t, idx') => t :: runTicks content idx' n
    | none => []

theorem tickIndex_lt (idx : Nat) (content : List String) (h : content ≠ []) :
    tickIndex idx content < content.length := by
  have : 0 < content.length := List.length_pos.mpr h
  unfold tickIndex
  split <;> omega

theorem tick_eq_some (idx : Nat) (content : List String) (h : content ≠ []) :
    tick idx content
      = some (content.get ⟨tickIndex idx content, tickIndex_lt idx content h⟩,
          tickIndex idx content + 1) := by
  unfold tick
  rw [List.get?_eq_get (tickIndex_lt idx content h)]

theorem runTicks_succ (content : List String) (idx m : Nat) (h : content ≠ []) :
    runTicks content idx (m + 1)
      = content.get ⟨tickIndex idx content, tickIndex_lt idx content h⟩
          :: runTicks content (tickIndex idx content + 1) m := by
  rw [runTicks, tick_eq_some idx content h]

theorem runTicks_get (content : List String) (h : content ≠ []) :
    ∀ n idx i, i < n →
      (runTicks content idx n).get? i
        = content.get? ((tickIndex idx content + i) % content.length) := by
  intro n
  induction n with
  | zero => intro idx i hi; omega
  | succ m ih =>
    intro idx i hi
    rw [runTicks_succ content idx m h]
    rcases i with _ | j
    · rw [List.get?_cons_zero, Nat.add_zero,
        Nat.mod_eq_of_lt (tickIndex_lt idx content h),
        List.get?_eq_get (tickIndex_lt idx content h)]
    · rw [List.get?_cons_succ, ih (tickIndex idx content + 1) j (by omega)]
      congr 1
      set a := tickIndex idx content with ha
      have haL : a < content.length := tickIndex_lt idx content h
      by_cases hcase : content.length ≤ a + 1
      · have h1 : tickIndex (a + 1) content = 0 := by
          unfold tickIndex; rw [if_pos hcase]
        have h2 : a + (j + 1) = content.length + j := by omega
        rw [h1, Nat.zero_add, h2, Nat.add_mod_left]
      · have h1 : tickIndex (a + 1) content = a + 1 := by
          unfold tickIndex; rw [if_neg hcase]
        have h2 : a + 1 + j = a + (j + 1) := by omega
        rw [h1, h2]

/-- the state of an `AutomatedTweeter` instance together with the loop's
control state: `stopClosed` records that `Stop` has closed `StopChan`,
`returned` that the `Start` loop has taken the stop case and exited. -/
structure TweeterState where
  currentIndex : Nat
  content : List String
  stopClosed : Bool
  returned : Bool
deriving DecidableEq, Repr

/-- observable events of the `Start` loop: a tweet being posted by the
ticker case, `Stop` closing the channel, and the `select` taking the
stop case (after which `Start` returns). -/
inductive TweeterEvent where
  | post (text : String)
  | stopCall
  | stopRecv
deriving DecidableEq, Repr

/-- one step of the `AutomatedTweeter.Start` loop together with the
concurrent `Stop` call.  The `tick` case needs only that the loop has not
returned: Go's `select` chooses uniformly among ready cases, so a pending
ticker fire may be chosen even when `StopChan` is already closed.  The
stop case (`stopRecv`) is enabled exactly when the channel is closed and
the loop is still running, and it sets `returned`. -/
inductive TweeterStep : TweeterState → TweeterEvent → TweeterState → Prop where
  | tick {s : TweeterState} {t : String} {idx' : Nat}
      (hrun : s.returned = false)
      (htick : tick s.currentIndex s.content = some (t, idx')) :
      TweeterStep s (.post t) { s with currentIndex := idx' }
  | stopCall {s : TweeterState} (h : s.stopClosed = false) :
      TweeterStep s .stopCall { s with stopClosed := true }
  | stopRecv {s : TweeterState} (hclosed : s.stopClosed = true)
      (hrun : s.returned = false) :
      TweeterStep s .stopRecv { s with returned := true }

/-- a finite execution of the loop, as the list of events it produced. -/
inductive TweeterTrace : TweeterState → List TweeterEvent → TweeterState → Prop where
  | nil {s : TweeterState} : TweeterTrace s [] s
  | cons {s s' s'' : TweeterState} {e : TweeterEvent} {es : List TweeterEvent} :
      TweeterStep s e s' → TweeterTrace s' es s'' → TweeterTrace s (e :: es) s''

theorem TweeterStep.of_returned {s s' : TweeterState} {e : TweeterEvent}
    (h : TweeterStep s e s') (hret : s.returned = true) :
    s'.returned = true ∧ ∀ t, e ≠ .post t := by
  cases h with
  | tick hrun htick => rw [hret] at hrun; cases hrun
  | stopCall h => exact ⟨hret, fun t h' => TweeterEvent.noConfusion h'⟩
  | stopRecv hclosed hrun => rw [hret] at hrun; cases hrun

/-- C7 (counterexample). After `Stop` closes the channel, a ticker fire
that is also ready may still be selected, so a tweet is posted after the
stop call: the event sequence [stopCall, post "a"] is an execution of the
loop, contradicting "no further tweets are ever posted once Stop is
called". -/
theorem C7_counterexample :
    TweeterTrace ⟨0, ["a"], false, false⟩
      [TweeterEvent.stopCall, TweeterEvent.post "a"]
      ⟨1, ["a"], true, false⟩ :=
  .cons (.stopCall rfl) (.cons (.tick rfl rfl) .nil)

/-- C7 (amended). Once the loop has actually received the stop signal
(the `select` takes the closed-StopChan case and `Start` returns), no
further tweet is ever posted: every execution from a returned state
contains no post event and stays returned.  Moreover the stop case is
enabled whenever the channel has been closed and the loop is still
running, and taking it makes the loop return.  (Between `Stop` closing
the channel and the signal being received, pending ticker fires may still
post, which is what the counterexample exhibits.) -/
theorem C7_no_posts_after_stop_received :
    (∀ (s : TweeterState) (es : List TweeterEvent) (s' : TweeterState),
        TweeterTrace s es s' → s.returned = true →
        (∀ t, TweeterEvent.post t ∉ es) ∧ s'.returned = true) ∧
    (∀ s : TweeterState, s.stopClosed = true → s.returned = false →
        TweeterStep s .stopRecv { s with returned := true }) := by
  constructor
  · intro s es s' htr
    induction htr with
    | nil => intro hret; exact ⟨fun t => List.not_mem_nil _, hret⟩
    | cons hstep htr2 ih =>
      intro hret
      obtain ⟨hret', hne⟩ := TweeterStep.of_returned hstep hret
      obtain ⟨hnotin, hfin⟩ := ih hret'
      refine ⟨?_, hfin⟩
      intro t hmem
      rcases List.mem_cons.mp hmem with h | h
      · exact hne t h.symm
      · exact hnotin t h
  · intro s hclosed hrun
    exact .stopRecv hclosed hrun

/-- C7 (witness): the amended theorem applied at a concrete returned state
and a concrete closed-channel state. -/
theorem C7_no_posts_witness :
    ((∀ t, TweeterEvent.post t ∉ ([] : List TweeterEvent))
      ∧ (⟨0, ["a"], true, true⟩ : TweeterState).returned = true) ∧
    TweeterStep ⟨0, ["a"], true, false⟩ TweeterEvent.stopRecv ⟨0, ["a"], true, true⟩ :=
  ⟨C7_no_posts_after_stop_received.1 ⟨0, ["a"], true, true⟩ [] _ TweeterTrace.nil rfl,
   C7_no_posts_after_stop_received.2 ⟨0, ["a"], true, false⟩ rfl rfl⟩

/-- C8. In each tick of the `Start` loop: when the content list is
non-empty the index access is in bounds (after the reset of
`CurrentIndex` to 0 when it reaches or exceeds len(Content)) and the
content is posted cyclically in list order (the i-th posted text starting
from index 0 is `Content[i % len(Content)]`); when the content list is
empty the access is out of bounds and the tick panics (`tick` returns
none for every starting index, in particular for the first tick's
index 0). -/
theorem C8_tick_in_bounds_and_cyclic :
    (∀ (content : List String) (idx : Nat), content ≠ [] →
        tickIndex idx content < content.length ∧ tick idx content ≠ none) ∧
    (∀ (content : List String) (n i : Nat), content ≠ [] → i < n →
        (runTicks content 0 n).get? i = content.get? (i % content.length)) ∧
    (∀ idx : Nat, tick idx ([] : List String) = none) := by
  refine ⟨?_, ?_, ?_⟩
  · intro content idx h
    refine ⟨tickIndex_lt idx content h, ?_⟩
    rw [tick_eq_some idx content h]
    exact Option.noConfusion
  · intro content n i h hi
    have := runTicks_get content h n 0 i hi
    have h0 : tickIndex 0 content = 0 := by
      unfold tickIndex; split <;> omega
    rwa [h0, Nat.zero_add] at this
  · intro idx; rfl

/-- C8 (witness): with a two-element list and six ticks from index 0, the
posts cycle through the list in order; with the empty list the first tick
is the out-of-bounds panic. -/
theorem C8_tick_witness :
    (tickIndex 5 ["a", "b"] < 2 ∧ tick 5 ["a", "b"] ≠ none) ∧
    (runTicks ["a", "b"] 0 6).get? 4 = some "a" ∧
    tick 0 ([] : List String) = none := by
  refine ⟨C8_tick_in_bounds_and_cyclic.1 ["a", "b"] 5 (by decide), ?_, ?_⟩
  · have := C8_tick_in_bounds_and_cyclic.2.1 ["a", "b"] 6 4 (by decide) (by decide)
    simpa using this
  · exact C8_tick_in_bounds_and_cyclic.2.2 0

/-! ## ThreadService (src/integrations/threads.go)

Each operation validates its required string arguments first (returning a
validation error before building any request), then builds one request
with a Content-Type header (for bodies) and a Bearer Authorization
header, sends it, maps 404 to a fixed not-found error, maps any other
non-success status to "API error (status <code>): <body>", and otherwise
decodes the response JSON.  The network and JSON decoding are the
environment: `outcome` is what `HTTPClient.Do` produced, `decode` what
`json.Decode` on the body produced. -/

/-- the outcome of sending one HTTP request: a transport error from
`HTTPClient.Do`, or a response. -/
inductive HttpOutcome where
  | transportErr (msg : String)
  | response (resp : HttpResponse)
deriving DecidableEq, Repr

/-- the ThreadService client record (threads.go:35-39); the HTTP client
itself is part of the environment. -/
structure ThreadService where
  baseURL : String
  authToken : String
deriving DecidableEq, Repr

/-- a discussion thread (threads.go:14-21); the two time.Time fields are
modelled as strings. -/
structure Thread where
  id : String
  title : String
  content : String
  authorID : String
  createdAt : String
  updatedAt : String
deriving DecidableEq, Repr

/-- a reply to a thread (threads.go:24-32). -/
structure Reply where
  id : String
  threadID : String
  content : String
  authorID : String
  parentID : String
  createdAt : String
  updatedAt : String
deriving DecidableEq, Repr

/-- `ThreadService.CreateThread` (threads.go:51-95). -/
def ThreadService.createThread (s : ThreadService) (title content authorID : String)
    (outcome : HttpOutcome) (decode : Except String Thread) :
    Except String Thread × List HttpRequest :=
  if title = "" then (.error "title cannot be empty", [])
  else if content = "" then (.error "content cannot be empty", [])
  else
    -- json.Marshal of a map of strings cannot fail; http.NewRequest with a
    -- constant method succeeds, so those error branches are unreachable.
    let req : HttpRequest :=
      ⟨"POST", s.baseURL ++ "/threads",
        [("Content-Type", "application/json"),
         ("Authorization", "Bearer " ++ s.authToken)]⟩
    match outcome with
    | .transportErr e => (.error ("error sending request: " ++ e), [req])
    | .response r =>
      if r.status ≠ 201 then
        (.error ("API error (status " ++ toString r.status ++ "): " ++ r.body), [req])
      else
        match decode with
        | .error e => (.error ("error decoding response: " ++ e), [req])
        | .ok t => (.ok t, [req])

/-- `ThreadService.GetThread` (threads.go:98-131). -/
def ThreadService.getThread (s : ThreadService) (threadID : String)
    (outcome : HttpOutcome) (decode : Except String Thread) :
    Except String Thread × List HttpRequest :=
  if threadID = "" then (.error "thread ID cannot be empty", [])
  else
    let req : HttpRequest :=
      ⟨"GET", s.baseURL ++ "/threads/" ++ threadID,
        [("Authorization", "Bearer " ++ s.authToken)]⟩
    match outcome with
    | .transportErr e => (.error ("error sending request: " ++ e), [req])
    | .response r =>
      if r.status = 404 then (.error "thread not found", [req])
      else if r.status ≠ 200 then
        (.error ("API error (status " ++ toString r.status ++ "): " ++ r.body), [req])
      else
        match decode with
        | .error e => (.error ("error decoding response: " ++ e), [req])
        | .ok t => (.ok t, [req])

/-- `ThreadService.UpdateReply` (threads.go:345-391). -/
def ThreadService.updateReply (s : ThreadService) (replyID content : String)
    (outcome : HttpOutcome) (decode : Except String Reply) :
    Except String Reply × List HttpRequest :=
  if replyID = "" then (.error "reply ID cannot be empty", [])
  else if content = "" then (.error "content cannot be empty", [])
  else
    let req : HttpRequest :=
      ⟨"PUT", s.baseURL ++ "/replies/" ++ replyID,
        [("Content-Type", "application/json"),
         ("Authorization", "Bearer " ++ s.authToken)]⟩
    match outcome with
    | .transportErr e => (.error ("error sending request: " ++ e), [req])
    | .response r =>
      if r.status = 404 then (.error "reply not found", [req])
      else if r.status ≠ 200 then
        (.error ("API error (status " ++ toString r.status ++ "): " ++ r.body), [req])
      else
        match decode with
        | .error e => (.error ("error decoding response: " ++ e), [req])
        | .ok t => (.ok t, [req])

/-- `ThreadService.SearchThreads` (threads.go:425-455); page and limit are
Go ints. -/
def ThreadService.searchThreads (s : ThreadService) (query : String) (page limit : Int)
    (outcome : HttpOutcome) (decode : Except String (List Thread)) :
    Except String (List Thread) × List HttpRequest :=
  if query = "" then (.error "search query cannot be empty", [])
  else
    let req : HttpRequest :=
      ⟨"GET", s.baseURL ++ "/threads/search?q=" ++ query ++ "&page=" ++ toString page
          ++ "&limit=" ++ toString limit,
        [("Authorization", "Bearer " ++ s.authToken)]⟩
    match outcome with
    | .transportErr e => (.error ("error sending request: " ++ e), [req])
    | .response r =>
      if r.status ≠ 200 then
        (.error ("API error (status " ++ toString r.status ++ "): " ++ r.body), [req])
      else
        match decode with
        | .error e => (.error ("error decoding response: " ++ e), [req])
        | .ok t => (.ok t, [req])

/-- C9. Every modelled ThreadService operation that requires a non-empty
string argument (title and content for CreateThread, thread ID for
GetThread, reply ID and content for UpdateReply, the query for
SearchThreads) returns the corresponding validation error immediately
when that argument is empty, and the request list is empty: no HTTP
request is issued.  The operations never modify the service record (the
embedding is a pure function of it), so no client state changes. -/
theorem C9_empty_arg_validation :
    (∀ (s : ThreadService) content authorID outcome decode,
        s.createThread "" content authorID outcome decode
          = (.error "title cannot be empty", [])) ∧
    (∀ (s : ThreadService) title authorID outcome decode, title ≠ "" →
        s.createThread title "" authorID outcome decode
          = (.error "content cannot be empty", [])) ∧
    (∀ (s : ThreadService) outcome decode,
        s.getThread "" outcome decode = (.error "thread ID cannot be empty", [])) ∧
    (∀ (s : ThreadService) content outcome decode,
        s.updateReply "" content outcome decode
          = (.error "reply ID cannot be empty", [])) ∧
    (∀ (s : ThreadService) replyID outcome decode, replyID ≠ "" →
        s.updateReply replyID "" outcome decode
          = (.error "content cannot be empty", [])) ∧
    (∀ (s : ThreadService) page limit outcome decode,
        s.searchThreads "" page limit outcome decode
          = (.error "search query cannot be empty", [])) := by
  refine ⟨fun s c a o d => rfl, ?_, fun s o d => rfl, fun s c o d => rfl, ?_,
    fun s p l o d => rfl⟩
  · intro s title authorID outcome decode h
    simp [ThreadService.createThread, h]
  · intro s replyID outcome decode h
    simp [ThreadService.updateReply, h]

/-- C9 (witness): the validation theorem applied at concrete arguments. -/
theorem C9_empty_arg_witness :
    (ThreadService.createThread ⟨"http://x", "tok"⟩ "" "c" "a"
        (HttpOutcome.response ⟨201, "b"⟩) (.error "unused")
      = (.error "title cannot be empty", [])) ∧
    (ThreadService.createThread ⟨"http://x", "tok"⟩ "t" "" "a"
        (HttpOutcome.response ⟨201, "b"⟩) (.error "unused")
      = (.error "content cannot be empty", [])) ∧
    (ThreadService.getThread ⟨"http://x", "tok"⟩ ""
        (HttpOutcome.response ⟨200, "b"⟩) (.error "unused")
      = (.error "thread ID cannot be empty", [])) ∧
    (ThreadService.updateReply ⟨"http://x", "tok"⟩ "" "c"
        (HttpOutcome.response ⟨200, "b"⟩) (.error "unused")
      = (.error "reply ID cannot be empty", [])) ∧
    (ThreadService.updateReply ⟨"http://x", "tok"⟩ "r1" ""
        (HttpOutcome.response ⟨200, "b"⟩) (.error "unused")
      = (.error "content cannot be empty", [])) ∧
    (ThreadService.searchThreads ⟨"http://x", "tok"⟩ "" 1 10
        (HttpOutcome.response ⟨200, "b"⟩) (.error "unused")
      = (.error "search query cannot be empty", [])) :=
  ⟨C9_empty_arg_validation.1 _ _ _ _ _,
   C9_empty_arg_validation.2.1 _ _ _ _ _ (by decide),
   C9_empty_arg_validation.2.2.1 _ _ _,
   C9_empty_arg_validation.2.2.2.1 _ _ _ _,
   C9_empty_arg_validation.2.2.2.2.1 _ _ _ _ (by decide),
   C9_empty_arg_validation.2.2.2.2.2 _ _ _ _ _⟩

/-! ## TwitterClient (src/integrations/twitter.go:13-233) -/

/-- the Twitter client record (twitter.go:14-22). -/
structure TwitterClient where
  bearerToken : String
  apiKey : String
  apiSecret : String
  accessToken : String
  tokenSecret : String
  baseURL : String
deriving DecidableEq, Repr

/-- a tweet (twitter.go:38-45); CreatedAt (time.Time) is modelled as a
string. -/
structure Tweet where
  id : String
  text : String
  createdAt : String
  authorID : String
  conversationID : String
  inReplyToTweetID : String
deriving DecidableEq, Repr

/-- `TwitterClient.CreateTweet` (twitter.go:62-99); `decode` is the result
of decoding the response body into a TweetResponse and taking its Data
field.  json.Marshal of the payload map and http.NewRequest cannot fail
here, so those branches are unreachable. -/
def TwitterClient.createTweet (c : TwitterClient) (text : String)
    (outcome : HttpOutcome) (decode : Except String Tweet) :
    Except String Tweet × List HttpRequest :=
  let req : HttpRequest :=
    ⟨"POST", c.baseURL ++ "/tweets",
      [("Authorization", "Bearer " ++ c.bearerToken),
       ("Content-Type", "application/json")]⟩
  match outcome with
  | .transportErr e => (.error ("error sending request: " ++ e), [req])
  | .response r =>
    if r.status ≠ 201 ∧ r.status ≠ 200 then
      (.error ("API error: " ++ toString r.status ++ " - " ++ r.body), [req])
    else
      match decode with
      | .error e => (.error ("error decoding response: " ++ e), [req])
      | .ok t => (.ok t, [req])

/-- `TwitterClient.GetTweet` (twitter.go:145-172). -/
def TwitterClient.getTweet (c : TwitterClient) (tweetID : String)
    (outcome : HttpOutcome) (decode : Except String Tweet) :
    Except String Tweet × List HttpRequest :=
  let req : HttpRequest :=
    ⟨"GET", c.baseURL ++ "/tweets/" ++ tweetID,
      [("Authorization", "Bearer " ++ c.bearerToken)]⟩
  match outcome with
  | .transportErr e => (.error ("error sending request: " ++ e), [req])
  | .response r =>
    if r.status ≠ 200 then
      (.error ("API error: " ++ toString r.status ++ " - " ++ r.body), [req])
    else
      match decode with
      | .error e => (.error ("error decoding response: " ++ e), [req])
      | .ok t => (.ok t, [req])

/-! ## LinkedInClient (src/integrations/linkedin.go)

The file contains two concatenated versions of several methods; the
modelled ones are `InitiateImageUpload` (lines 424-501), `UploadImage`
(lines 504-552) and the second `CreateVideoPost` (lines 1669-1763), the
versions the claims cite. -/

/-- the LinkedIn client record (linkedin.go:28-35). -/
structure LinkedInClient where
  clientID : String
  clientSecret : String
  redirectURI : String
  accessToken : String
  userID : String
deriving DecidableEq, Repr

/-- constant AssetUploadURL (linkedin.go:23). -/
def AssetUploadURL : String := "https://api.linkedin.com/v2/assets"

/-- constant UGCPostURL (linkedin.go:21). -/
def UGCPostURL : String := "https://api.linkedin.com/v2/ugcPosts"

/-- the parsed view of the register-upload response that
InitiateImageUpload extracts: whether decoding failed, whether
`value` and `value.uploadMechanism` are JSON objects, and the
`...MediaUploadHttpRequest.uploadUrl` and `value.asset` strings when
present. -/
structure AssetUploadParse where
  decodeErr : Option String
  valueOk : Bool
  mechanismOk : Bool
  uploadUrl : Option String
  asset : Option String
deriving DecidableEq, Repr

/-- `LinkedInClient.InitiateImageUpload` (linkedin.go:424-501).  On
success it returns the asset URN and the uploadUrl extracted from the
upload mechanism (the only part of the returned mechanism map that
`UploadImage` reads). -/
def LinkedInClient.initiateImageUpload (c : LinkedInClient) (imageType : String)
    (outcome : HttpOutcome) (parse : AssetUploadParse) :
    Except String (String × Option String) × List HttpRequest :=
  if c.accessToken = "" then (.error "access token is required", [])
  else
    let req : HttpRequest :=
      ⟨"POST", AssetUploadURL,
        [("Authorization", "Bearer " ++ c.accessToken),
         ("Content-Type", "application/json")]⟩
    match outcome with
    | .transportErr e => (.error e, [req])
    | .response r =>
      if r.status ≠ 200 then
        (.error ("failed to initiate image upload: " ++ r.body ++ ", status: "
            ++ toString r.status), [req])
      else
        match parse.decodeErr with
        | some e => (.error e, [req])
        | none =>
          if !parse.valueOk then (.error "invalid upload response structure", [req])
          else if !parse.mechanismOk then (.error "invalid upload mechanism", [req])
          else
            match parse.uploadUrl with
            | none => (.error "could not find upload URL", [req])
            | some u =>
              match parse.asset with
              | none => (.error "could not find asset URN", [req])
              | some a => (.ok (a, some u), [req])

/-- `LinkedInClient.UploadImage` (linkedin.go:504-552).  `fileContents`
models `os.Open` plus `io.ReadAll` on the image path.  The PUT request to
the upload URL sets no headers at all (the code calls `http.NewRequest`
and sends it directly). -/
def LinkedInClient.uploadImage (c : LinkedInClient) (imagePath : String)
    (initOutcome : HttpOutcome) (initParse : AssetUploadParse)
    (fileContents : Except String String) (putOutcome : HttpOutcome) :
    Except String String × List HttpRequest :=
  if c.accessToken = "" then (.error "access token is required", [])
  else
    match c.initiateImageUpload "image" initOutcome initParse with
    | (.error e, reqs) => (.error e, reqs)
    | (.ok (assetURN, uploadUrl), reqs) =>
      match uploadUrl with
      | none => (.error "could not find upload URL", reqs)
      | some u =>
        match fileContents with
        | .error e => (.error e, reqs)
        | .ok _ =>
          let putReq : HttpRequest := ⟨"PUT", u, []⟩
          match putOutcome with
          | .transportErr e => (.error e, reqs ++ [putReq])
          | .response r =>
            if r.status ≠ 200 ∧ r.status ≠ 201 ∧ r.status ≠ 204 then
              (.error ("failed to upload image: " ++ r.body ++ ", status: "
                  ++ toString r.status), reqs ++ [putReq])
            else (.ok assetURN, reqs ++ [putReq])

/-- `LinkedInClient.CreateVideoPost`, second version (linkedin.go:1669-1763).
The Go method takes a JSON input and extracts text, video_url, author_type
and author_id (Unmarshal errors ignored); the extracted fields are the
parameters here.  `profile` models the GetUserProfile fetch used to
resolve an empty author ID (its own HTTP request is part of that
environment call and is not traced here).  On a success status the code
decodes `req.Body` - the request, not the response - into a map it then
discards, and returns `nil, nil`: modelled as `.ok none`. -/
def LinkedInClient.createVideoPost (c : LinkedInClient)
    (text videoUrl authorType authorID : String)
    (profile : Except String String) (outcome : HttpOutcome) :
    Except String (Option String) × List HttpRequest :=
  if c.accessToken = "" then (.error "access token is required", [])
  else
    let authorType' := if authorType = "" then "person" else authorType
    let resolved : Except String String :=
      if authorID = "" ∧ authorType' = "person" then
        if c.userID = "" then
          match profile with
          | .error e => .error ("could not determine user ID: " ++ e)
          | .ok pid => .ok pid
        else .ok c.userID
      else .ok authorID
    match resolved with
    | .error e => (.error e, [])
    | .ok _ =>
      let req : HttpRequest :=
        ⟨"POST", UGCPostURL,
          [("Authorization", "Bearer " ++ c.accessToken),
           ("Content-Type", "application/json"),
           ("X-Restli-Protocol-Version", "2.0.0")]⟩
      match outcome with
      | .transportErr e => (.error e, [req])
      | .response r =>
        if r.status ≠ 201 ∧ r.status ≠ 200 then
          (.error ("failed to create video post: " ++ r.body ++ ", status: "
              ++ toString r.status), [req])
        else (.ok none, [req])

/-! ## InstagramClient (src/integrations/instagram.go) -/

/-- the Instagram client record (instagram.go:21-28). -/
structure InstagramClient where
  appID : String
  appSecret : String
  redirectURI : String
  accessToken : String
  userID : String
deriving DecidableEq, Repr

/-- a media creation response (instagram.go:38-41); StatusURL is the empty
string when the field is absent. -/
structure MediaResponse where
  id : String
  statusURL : String
deriving DecidableEq, Repr

/-- the outcome of one Instagram Graph request: a transport error, or a
response with its raw status and body plus the result of decoding the
body into a MediaResponse (`decodeErr` is the json.Decode error when
decoding fails). -/
inductive IgOutcome where
  | transportErr (msg : String)
  | response (status : Nat) (body : String)
      (decodeErr : Option String) (media : MediaResponse)
deriving DecidableEq, Repr

/-- the query parameters of the reel container request, in the order
PostReel adds them (instagram.go:278-290). -/
def reelParams (c : InstagramClient)
    (videoPath caption coverImagePath : String) (shareToFeed : Bool) :
    List (String × String) :=
  [("media_type", "REELS"), ("video_url", videoPath), ("caption", caption),
   ("access_token", c.accessToken)]
  ++ (if coverImagePath ≠ "" then [("thumb_url", coverImagePath)] else [])
  ++ (if shareToFeed then [("share_to_feed", "true")] else [])

/-- `InstagramClient.PostReel` (instagram.go:269-352): create the reel
container, poll the status URL (when one was returned) via
waitForMediaProcessing, then publish.  The trace records one GET per poll
attempt; note that the container and publish steps abort on any status
other than 200, while the poll requests' HTTP statuses are never
inspected. -/
def InstagramClient.postReel (c : InstagramClient)
    (videoPath caption coverImagePath : String) (shareToFeed : Bool)
    (container : IgOutcome) (polls : Nat → PollOutcome) (publish : IgOutcome) :
    Except String MediaResponse × List IgRequest :=
  if c.accessToken = "" ∨ c.userID = "" then
    (.error "access token and user ID are required", [])
  else
    let req1 : IgRequest :=
      ⟨"POST", c.userID ++ "/media", reelParams c videoPath caption coverImagePath shareToFeed⟩
    match container with
    | .transportErr e => (.error e, [req1])
    | .response st body decodeErr media =>
      if st ≠ 200 then
        (.error ("failed to create reel container: " ++ body ++ ", status: "
            ++ toString st), [req1])
      else
        match decodeErr with
        | some e => (.error e, [req1])
        | none =>
          let wait := if media.statusURL ≠ "" then waitForMediaProcessing polls
            else ⟨.ok, 0, 0⟩
          let pollReqs : List IgRequest :=
            (List.range wait.polls).map (fun _ => ⟨"GET", media.statusURL, []⟩)
          match wait.result with
          | .error e => (.error e, req1 :: pollReqs)
          | .ok =>
            let req2 : IgRequest :=
              ⟨"POST", c.userID ++ "/media_publish",
                [("creation_id", media.id), ("access_token", c.accessToken)]⟩
            match publish with
            | .transportErr e => (.error e, req1 :: (pollReqs ++ [req2]))
            | .response st2 b2 derr2 m2 =>
              if st2 ≠ 200 then
                (.error ("failed to publish reel: " ++ b2 ++ ", status: "
                    ++ toString st2), req1 :: (pollReqs ++ [req2]))
              else
                match derr2 with
                | some e => (.error e, req1 :: (pollReqs ++ [req2]))
                | none => (.ok m2, req1 :: (pollReqs ++ [req2]))

/-- strings.ToLower: the Go function lower-cases each rune of the string. -/
def toLowerStr (s : String) : String := ⟨s.data.map Char.toLower⟩

/-- strings.HasSuffix, as a suffix test on the character list. -/
def hasSuffix (s suffix : String) : Bool := suffix.data.isSuffixOf s.data

/-- the child container request PostCarousel builds for one media path
(instagram.go:402-417): media_type VIDEO with parameter video_url when the
lower-cased path has suffix ".mp4", otherwise IMAGE with image_url. -/
def childRequest (c : InstagramClient) (mediaPath : String) : IgRequest :=
  let mt : String × String :=
    if hasSuffix (toLowerStr mediaPath) ".mp4" then ("VIDEO", "video_url")
    else ("IMAGE", "image_url")
  ⟨"POST", c.userID ++ "/media",
    [("media_type", mt.1), (mt.2, mediaPath), ("is_carousel_item", "true"),
     ("access_token", c.accessToken)]⟩

/-- the child-container loop of `PostCarousel` (instagram.go:400-455):
one container request per media path, in input order, each followed by
polling when a status URL is returned; the child IDs are collected in the
same order.  `children i` is the outcome of the i-th container request and
`childPolls i` the poll outcomes for the i-th child. -/
def InstagramClient.postCarouselLoop (c : InstagramClient)
    (children : Nat → IgOutcome) (childPolls : Nat → Nat → PollOutcome) :
    List String → Nat → Except String (List String) × List IgRequest
  | [], _ => (.ok [], [])
  | mediaPath :: rest, i =>
    let req := childRequest c mediaPath
    match children i with
    | .transportErr e => (.error e, [req])
    | .response st body decodeErr media =>
      if st ≠ 200 then
        (.error ("failed to create media container: " ++ body ++ ", status: "
            ++ toString st), [req])
      else
        match decodeErr with
        | some e => (.error e, [req])
        | none =>
          let wait := if media.statusURL ≠ "" then waitForMediaProcessing (childPolls i)
            else ⟨.ok, 0, 0⟩
          let pollReqs : List IgRequest :=
            (List.range wait.polls).map (fun _ => ⟨"GET", media.statusURL, []⟩)
          match wait.result with
          | .error e => (.error e, req :: pollReqs)
          | .ok =>
            match c.postCarouselLoop children childPolls rest (i + 1) with
            | (.ok ids, reqs) => (.ok (media.id :: ids), req :: (pollReqs ++ reqs))
            | (.error e, reqs) => (.error e, req :: (pollReqs ++ reqs))

/-- `InstagramClient.PostCarousel` (instagram.go:394-520): the child loop,
then the carousel container request whose `children` parameter joins the
collected child IDs with commas, then the publish request. -/
def InstagramClient.postCarousel (c : InstagramClient)
    (mediaPaths : List String) (caption : String)
    (children : Nat → IgOutcome) (childPolls : Nat → Nat → PollOutcome)
    (carousel : IgOutcome) (publish : IgOutcome) :
    Except String MediaResponse × List IgRequest :=
  if c.accessToken = "" ∨ c.userID = "" then
    (.error "access token and user ID are required", [])
  else
    match c.postCarouselLoop children childPolls mediaPaths 0 with
    | (.error e, reqs) => (.error e, reqs)
    | (.ok childrenIDs, reqs) =>
      let carReq : IgRequest :=
        ⟨"POST", c.userID ++ "/media",
          [("media_type", "CAROUSEL"), ("caption", caption),
           ("access_token", c.accessToken),
           ("children", String.intercalate "," childrenIDs)]⟩
      match carousel with
      | .transportErr e => (.error e, reqs ++ [carReq])
      | .response st body derr media =>
        if st ≠ 200 then
          (.error ("failed to create carousel container: " ++ body ++ ", status: "
              ++ toString st), reqs ++ [carReq])
        else
          match derr with
          | some e => (.error e, reqs ++ [carReq])
          | none =>
            let pubReq : IgRequest :=
              ⟨"POST", c.userID ++ "/media_publish",
                [("creation_id", media.id), ("access_token", c.accessToken)]⟩
            match publish with
            | .transportErr e => (.error e, reqs ++ [carReq, pubReq])
            | .response st2 b2 derr2 m2 =>
              if st2 ≠ 200 then
                (.error ("failed to publish carousel: " ++ b2 ++ ", status: "
                    ++ toString st2), reqs ++ [carReq, pubReq])
              else
                match derr2 with
                | some e => (.error e, reqs ++ [carReq, pubReq])
                | none => (.ok m2, reqs ++ [carReq, pubReq])

theorem containsStr_intro (a sub b hay : String)
    (h : a.data ++ sub.data ++ b.data = hay.data) : containsStr hay sub :=
  ⟨a.data, b.data, h⟩

/-- C4 (the code evaluated at the failing input).  `CreateVideoPost`
receives an HTTP 200 response with a known JSON body, yet returns
`nil, nil`: the success branch decodes `req.Body` (the request, not the
response) into a map it discards and produces no result, so the returned
value does not reflect the response fields. -/
theorem C4_createVideoPost_discards_response :
    (LinkedInClient.createVideoPost ⟨"cid", "sec", "uri", "tok", "u1"⟩
        "hello" "urn:li:digitalmediaAsset:1" "person" "u1"
        (.ok "unusedProfile")
        (.response ⟨200, "\x7b\"id\":\"urn:li:share:42\"\x7d"⟩)).1
      = .ok none := rfl

/-- C3 (counterexample).  `GetThread` on a 404 response (a non-success
status) with body "gone" returns the fixed error "thread not found",
which contains neither the numeric status code nor the response body. -/
theorem C3_counterexample :
    (ThreadService.getThread ⟨"http://x", "tok"⟩ "t1"
        (HttpOutcome.response ⟨404, "gone"⟩) (.error "unused")).1
      = .error "thread not found" ∧
    ¬ containsStr "thread not found" "404" ∧
    ¬ containsStr "thread not found" "gone" :=
  ⟨rfl, by decide, by decide⟩

/-- C3 (amended).  For the modelled endpoint wrappers of the Twitter,
ThreadService, Instagram and LinkedIn clients, a response whose status is
outside the wrapper's success set yields an error message containing both
the numeric status code and the raw body, with two exceptions: the
ThreadService 404 branches return the fixed messages "thread not found" /
"reply not found" containing neither, and the Instagram status-poll
requests' HTTP statuses are never inspected (only the JSON status_code
field of the poll body is). -/
theorem C3_nonsuccess_error_has_status_and_body :
    (∀ (c : TwitterClient) (text : String) (r : HttpResponse) decode,
        r.status ≠ 201 → r.status ≠ 200 →
        (c.createTweet text (.response r) decode).1
            = .error ("API error: " ++ toString r.status ++ " - " ++ r.body) ∧
        containsStr ("API error: " ++ toString r.status ++ " - " ++ r.body)
          (toString r.status) ∧
        containsStr ("API error: " ++ toString r.status ++ " - " ++ r.body) r.body) ∧
    (∀ (c : TwitterClient) (tweetID : String) (r : HttpResponse) decode,
        r.status ≠ 200 →
        (c.getTweet tweetID (.response r) decode).1
            = .error ("API error: " ++ toString r.status ++ " - " ++ r.body)) ∧
    (∀ (s : ThreadService) (threadID : String) (r : HttpResponse) decode,
        threadID ≠ "" → r.status ≠ 404 → r.status ≠ 200 →
        (s.getThread threadID (.response r) decode).1
            = .error ("API error (status " ++ toString r.status ++ "): " ++ r.body) ∧
        containsStr ("API error (status " ++ toString r.status ++ "): " ++ r.body)
          (toString r.status) ∧
        containsStr ("API error (status " ++ toString r.status ++ "): " ++ r.body)
          r.body) ∧
    (∀ (s : ThreadService) (threadID : String) (r : HttpResponse) decode,
        threadID ≠ "" → r.status = 404 →
        (s.getThread threadID (.response r) decode).1 = .error "thread not found") ∧
    (∀ (s : ThreadService) (replyID content : String) (r : HttpResponse) decode,
        replyID ≠ "" → content ≠ "" → r.status = 404 →
        (s.updateReply replyID content (.response r) decode).1
            = .error "reply not found") ∧
    (∀ (s : ThreadService) (title content authorID : String) (r : HttpResponse) decode,
        title ≠ "" → content ≠ "" → r.status ≠ 201 →
        (s.createThread title content authorID (.response r) decode).1
            = .error ("API error (status " ++ toString r.status ++ "): " ++ r.body)) ∧
    (∀ (c : InstagramClient) videoPath caption cover share st body derr media polls publish,
        c.accessToken ≠ "" → c.userID ≠ "" → (st < 200 ∨ 300 ≤ st) →
        (c.postReel videoPath caption cover share (.response st body derr media)
            polls publish).1
          = .error ("failed to create reel container: " ++ body ++ ", status: "
              ++ toString st) ∧
        containsStr ("failed to create reel container: " ++ body ++ ", status: "
            ++ toString st) (toString st) ∧
        containsStr ("failed to create reel container: " ++ body ++ ", status: "
            ++ toString st) body) ∧
    (∀ (c : InstagramClient) videoPath caption cover share body cid polls st2 b2 derr2 m2,
        c.accessToken ≠ "" → c.userID ≠ "" → (st2 < 200 ∨ 300 ≤ st2) →
        (c.postReel videoPath caption cover share (.response 200 body none ⟨cid, ""⟩)
            polls (.response st2 b2 derr2 m2)).1
          = .error ("failed to publish reel: " ++ b2 ++ ", status: " ++ toString st2) ∧
        containsStr ("failed to publish reel: " ++ b2 ++ ", status: " ++ toString st2)
          (toString st2) ∧
        containsStr ("failed to publish reel: " ++ b2 ++ ", status: " ++ toString st2) b2) ∧
    (∀ (c : LinkedInClient) imageType st body parse,
        c.accessToken ≠ "" → (st < 200 ∨ 300 ≤ st) →
        (c.initiateImageUpload imageType (.response ⟨st, body⟩) parse).1
          = .error ("failed to initiate image upload: " ++ body ++ ", status: "
              ++ toString st) ∧
        containsStr ("failed to initiate image upload: " ++ body ++ ", status: "
            ++ toString st) (toString st) ∧
        containsStr ("failed to initiate image upload: " ++ body ++ ", status: "
            ++ toString st) body) ∧
    (∀ (c : LinkedInClient) imagePath ibody u a bytes st2 b2,
        c.accessToken ≠ "" → (st2 < 200 ∨ 300 ≤ st2) →
        (c.uploadImage imagePath (.response ⟨200, ibody⟩) ⟨none, true, true, some u, some a⟩
            (.ok bytes) (.response ⟨st2, b2⟩)).1
          = .error ("failed to upload image: " ++ b2 ++ ", status: " ++ toString st2) ∧
        containsStr ("failed to upload image: " ++ b2 ++ ", status: " ++ toString st2)
          (toString st2) ∧
        containsStr ("failed to upload image: " ++ b2 ++ ", status: " ++ toString st2)
          b2) := by
  refine ⟨?_, ?_, ?_, ?_, ?_, ?_, ?_, ?_, ?_, ?_⟩
  · intro c text r decode h1 h2
    refine ⟨by simp [TwitterClient.createTweet, h1, h2], ?_, ?_⟩
    · exact containsStr_intro "API error: " _ (" - " ++ r.body) _
        (by simp [String.data_append, List.append_assoc])
    · exact containsStr_intro ("API error: " ++ toString r.status ++ " - ") _ "" _
        (by simp [String.data_append, List.append_assoc])
  · intro c tweetID r decode h
    simp [TwitterClient.getTweet, h]
  · intro s threadID r decode ht h404 h200
    refine ⟨by simp [ThreadService.getThread, ht, h404, h200], ?_, ?_⟩
    · exact containsStr_intro "API error (status " _ ("): " ++ r.body) _
        (by simp [String.data_append, List.append_assoc])
    · exact containsStr_intro ("API error (status " ++ toString r.status ++ "): ") _ "" _
        (by simp [String.data_append, List.append_assoc])
  · intro s threadID r decode ht h404
    simp [ThreadService.getThread, ht, h404]
  · intro s replyID content r decode hr hc h404
    simp [ThreadService.updateReply, hr, hc, h404]
  · intro s title content authorID r decode h1 h2 h3
    simp [ThreadService.createThread, h1, h2, h3]
  · intro c videoPath caption cover share st body derr media polls publish h1 h2 hst
    have hcond : ¬ (c.accessToken = "" ∨ c.userID = "") := by tauto
    have hne : st ≠ 200 := by omega
    refine ⟨by simp [InstagramClient.postReel, hcond, hne], ?_, ?_⟩
    · exact containsStr_intro ("failed to create reel container: " ++ body ++ ", status: ")
        _ "" _ (by simp [String.data_append, List.append_assoc])
    · exact containsStr_intro "failed to create reel container: " _
        (", status: " ++ toString st) _ (by simp [String.data_append, List.append_assoc])
  · intro c videoPath caption cover share body cid polls st2 b2 derr2 m2 h1 h2 hst
    have hcond : ¬ (c.accessToken = "" ∨ c.userID = "") := by tauto
    have hne : st2 ≠ 200 := by omega
    refine ⟨?_, ?_, ?_⟩
    · cases derr2 with
      | some e => simp [InstagramClient.postReel, hcond, hne, waitForMediaProcessing]
      | none => simp [InstagramClient.postReel, hcond, hne, waitForMediaProcessing]
    · exact containsStr_intro ("failed to publish reel: " ++ b2 ++ ", status: ") _ "" _
        (by simp [String.data_append, List.append_assoc])
    · exact containsStr_intro "failed to publish reel: " _ (", status: " ++ toString st2) _
        (by simp [String.data_append, List.append_assoc])
  · intro c imageType st body parse h hst
    have hne : st ≠ 200 := by omega
    refine ⟨by simp [LinkedInClient.initiateImageUpload, h, hne], ?_, ?_⟩
    · exact containsStr_intro ("failed to initiate image upload: " ++ body ++ ", status: ")
        _ "" _ (by simp [String.data_append, List.append_assoc])
    · exact containsStr_intro "failed to initiate image upload: " _
        (", status: " ++ toString st) _ (by simp [String.data_append, List.append_assoc])
  · intro c imagePath ibody u a bytes st2 b2 h hst
    have hcond : st2 ≠ 200 ∧ st2 ≠ 201 ∧ st2 ≠ 204 := by omega
    refine ⟨by simp [LinkedInClient.uploadImage, LinkedInClient.initiateImageUpload,
        h, hcond], ?_, ?_⟩
    · exact containsStr_intro ("failed to upload image: " ++ b2 ++ ", status: ") _ "" _
        (by simp [String.data_append, List.append_assoc])
    · exact containsStr_intro "failed to upload image: " _ (", status: " ++ toString st2) _
        (by simp [String.data_append, List.append_assoc])

/-- C3 (witness): the amended theorem applied at concrete non-success
responses, including the 404 exception branches and the Instagram and
LinkedIn steps. -/
theorem C3_nonsuccess_witness :
    ((TwitterClient.createTweet ⟨"bt", "k", "s", "at", "ts", "http://t"⟩ "hi"
        (.response ⟨403, "forbidden"⟩) (.error "unused")).1
      = .error ("API error: " ++ toString (403 : Nat) ++ " - " ++ "forbidden")
      ∧ containsStr ("API error: " ++ toString (403 : Nat) ++ " - " ++ "forbidden")
          (toString (403 : Nat))
      ∧ containsStr ("API error: " ++ toString (403 : Nat) ++ " - " ++ "forbidden")
          "forbidden") ∧
    ((ThreadService.getThread ⟨"http://x", "tok"⟩ "t1"
        (.response ⟨500, "boom"⟩) (.error "unused")).1
      = .error ("API error (status " ++ toString (500 : Nat) ++ "): " ++ "boom")
      ∧ containsStr ("API error (status " ++ toString (500 : Nat) ++ "): " ++ "boom")
          (toString (500 : Nat))
      ∧ containsStr ("API error (status " ++ toString (500 : Nat) ++ "): " ++ "boom")
          "boom") ∧
    (ThreadService.updateReply ⟨"http://x", "tok"⟩ "r1" "c"
        (.response ⟨404, "gone"⟩) (.error "unused")).1 = .error "reply not found" ∧
    ((InstagramClient.postReel ⟨"app", "sec", "uri", "tok", "u1"⟩ "v.mp4" "cap" "" false
        (.response 500 "cbody" none ⟨"c1", "surl"⟩)
        (fun _ => PollOutcome.transportErr "unused")
        (.response 200 "pbody" none ⟨"p1", ""⟩)).1
      = .error ("failed to create reel container: " ++ "cbody" ++ ", status: "
          ++ toString (500 : Nat))
      ∧ containsStr ("failed to create reel container: " ++ "cbody" ++ ", status: "
          ++ toString (500 : Nat)) (toString (500 : Nat))
      ∧ containsStr ("failed to create reel container: " ++ "cbody" ++ ", status: "
          ++ toString (500 : Nat)) "cbody") ∧
    ((LinkedInClient.uploadImage ⟨"cid", "sec", "uri", "tok", "u1"⟩ "img.png"
        (.response ⟨200, "ibody"⟩) ⟨none, true, true, some "u", some "a"⟩
        (.ok "bytes") (.response ⟨400, "bad"⟩)).1
      = .error ("failed to upload image: " ++ "bad" ++ ", status: " ++ toString (400 : Nat))
      ∧ containsStr ("failed to upload image: " ++ "bad" ++ ", status: "
          ++ toString (400 : Nat)) (toString (400 : Nat))
      ∧ containsStr ("failed to upload image: " ++ "bad" ++ ", status: "
          ++ toString (400 : Nat)) "bad") :=
  ⟨C3_nonsuccess_error_has_status_and_body.1 _ "hi" ⟨403, "forbidden"⟩ _
      (by decide) (by decide),
   C3_nonsuccess_error_has_status_and_body.2.2.1 _ "t1" ⟨500, "boom"⟩ _
      (by decide) (by decide) (by decide),
   C3_nonsuccess_error_has_status_and_body.2.2.2.2.1 _ "r1" "c" ⟨404, "gone"⟩ _
      (by decide) (by decide) rfl,
   C3_nonsuccess_error_has_status_and_body.2.2.2.2.2.2.1
      ⟨"app", "sec", "uri", "tok", "u1"⟩ "v.mp4" "cap" "" false 500 "cbody" none
      ⟨"c1", "surl"⟩ (fun _ => PollOutcome.transportErr "unused")
      (.response 200 "pbody" none ⟨"p1", ""⟩) (by decide) (by decide) (by omega),
   C3_nonsuccess_error_has_status_and_body.2.2.2.2.2.2.2.2.2
      ⟨"cid", "sec", "uri", "tok", "u1"⟩ "img.png" "ibody" "u" "a" "bytes" 400 "bad"
      (by decide) (by omega)⟩

/-- the trace of CreateTweet is always exactly its one POST request. -/
theorem createTweet_trace (c : TwitterClient) (text : String)
    (outcome : HttpOutcome) (decode : Except String Tweet) :
    (c.createTweet text outcome decode).2
      = [⟨"POST", c.baseURL ++ "/tweets",
          [("Authorization", "Bearer " ++ c.bearerToken),
           ("Content-Type", "application/json")]⟩] := by
  rcases outcome with e | r
  · rfl
  · by_cases h : r.status ≠ 201 ∧ r.status ≠ 200
    · simp [TwitterClient.createTweet, h]
    · cases decode <;> simp [TwitterClient.createTweet, h]

/-- the trace of GetTweet is always exactly its one GET request. -/
theorem getTweet_trace (c : TwitterClient) (tweetID : String)
    (outcome : HttpOutcome) (decode : Except String Tweet) :
    (c.getTweet tweetID outcome decode).2
      = [⟨"GET", c.baseURL ++ "/tweets/" ++ tweetID,
          [("Authorization", "Bearer " ++ c.bearerToken)]⟩] := by
  rcases outcome with e | r
  · rfl
  · by_cases h : r.status ≠ 200
    · simp [TwitterClient.getTweet, h]
    · cases decode <;> simp [TwitterClient.getTweet, h]

/-- the trace of GetThread with a non-empty thread ID is exactly its one
GET request. -/
theorem getThread_trace (s : ThreadService) (threadID : String) (h : threadID ≠ "")
    (outcome : HttpOutcome) (decode : Except String Thread) :
    (s.getThread threadID outcome decode).2
      = [⟨"GET", s.baseURL ++ "/threads/" ++ threadID,
          [("Authorization", "Bearer " ++ s.authToken)]⟩] := by
  rcases outcome with e | r
  · simp [ThreadService.getThread, h]
  · by_cases h404 : r.status = 404
    · simp [ThreadService.getThread, h, h404]
    · by_cases h200 : r.status ≠ 200
      · simp [ThreadService.getThread, h, h404, h200]
      · cases decode <;> simp [ThreadService.getThread, h, h404, h200]

/-- the trace of InitiateImageUpload with a non-empty access token is
exactly its one POST request. -/
theorem initiateImageUpload_trace (c : LinkedInClient) (imageType : String)
    (h : c.accessToken ≠ "") (outcome : HttpOutcome) (parse : AssetUploadParse) :
    (c.initiateImageUpload imageType outcome parse).2
      = [⟨"POST", AssetUploadURL,
          [("Authorization", "Bearer " ++ c.accessToken),
           ("Content-Type", "application/json")]⟩] := by
  rcases outcome with e | r
  · simp [LinkedInClient.initiateImageUpload, h]
  · by_cases h200 : r.status ≠ 200
    · simp [LinkedInClient.initiateImageUpload, h, h200]
    · rcases parse with ⟨derr, vOk, mOk, uUrl, asset⟩
      cases derr with
      | some e => simp [LinkedInClient.initiateImageUpload, h, h200]
      | none =>
        cases vOk <;> cases mOk <;> cases uUrl <;> cases asset <;>
          simp [LinkedInClient.initiateImageUpload, h, h200]

/-- C6 (counterexample).  The LinkedIn UploadImage sequence on a
successful run issues two requests - the register-upload POST and the raw
PUT of the file bytes - and the PUT request carries no headers at all, in
particular no Authorization header. -/
theorem C6_counterexample :
    LinkedInClient.uploadImage ⟨"cid", "sec", "uri", "tok", "u1"⟩ "img.png"
        (.response ⟨200, "ibody"⟩)
        ⟨none, true, true, some "https://upload.example/u", some "urn:li:digitalmediaAsset:9"⟩
        (.ok "bytes") (.response ⟨201, ""⟩)
      = (.ok "urn:li:digitalmediaAsset:9",
         [⟨"POST", AssetUploadURL,
            [("Authorization", "Bearer tok"), ("Content-Type", "application/json")]⟩,
          ⟨"PUT", "https://upload.example/u", []⟩]) ∧
    (∀ v, ("Authorization", v)
        ∉ (⟨"PUT", "https://upload.example/u", []⟩ : HttpRequest).headers) :=
  ⟨rfl, fun v => List.not_mem_nil _⟩

/-- C6 (amended).  The modelled Twitter, ThreadService and LinkedIn JSON
endpoint wrappers attach an `Authorization: Bearer <token>` header to
every request they issue; the Instagram wrappers instead pass the access
token as an `access_token` query parameter (their requests carry no
headers); and the LinkedIn media-upload PUT carries no headers at all,
relying on the signed upload URL. -/
theorem C6_auth_per_request :
    (∀ (c : TwitterClient) text outcome decode,
        ∀ req ∈ (c.createTweet text outcome decode).2,
          ("Authorization", "Bearer " ++ c.bearerToken) ∈ req.headers) ∧
    (∀ (c : TwitterClient) tweetID outcome decode,
        ∀ req ∈ (c.getTweet tweetID outcome decode).2,
          ("Authorization", "Bearer " ++ c.bearerToken) ∈ req.headers) ∧
    (∀ (s : ThreadService) threadID outcome decode,
        ∀ req ∈ (s.getThread threadID outcome decode).2,
          ("Authorization", "Bearer " ++ s.authToken) ∈ req.headers) ∧
    (∀ (c : LinkedInClient) imageType outcome parse,
        ∀ req ∈ (c.initiateImageUpload imageType outcome parse).2,
          ("Authorization", "Bearer " ++ c.accessToken) ∈ req.headers) ∧
    (∀ (c : InstagramClient) videoPath caption cover share,
        ("access_token", c.accessToken) ∈ reelParams c videoPath caption cover share) ∧
    (∀ (c : LinkedInClient) imagePath initOutcome initParse fileContents putOutcome,
        ∀ req ∈ (c.uploadImage imagePath initOutcome initParse fileContents putOutcome).2,
          req.method = "PUT" → req.headers = []) := by
  refine ⟨?_, ?_, ?_, ?_, ?_, ?_⟩
  · intro c text outcome decode req hreq
    rw [createTweet_trace] at hreq
    rcases List.mem_singleton.mp hreq with rfl
    simp
  · intro c tweetID outcome decode req hreq
    rw [getTweet_trace] at hreq
    rcases List.mem_singleton.mp hreq with rfl
    simp
  · intro s threadID outcome decode req hreq
    by_cases h : threadID = ""
    · subst h
      simp [ThreadService.getThread] at hreq
    · rw [getThread_trace s threadID h] at hreq
      rcases List.mem_singleton.mp hreq with rfl
      simp
  · intro c imageType outcome parse req hreq
    by_cases h : c.accessToken = ""
    · simp [LinkedInClient.initiateImageUpload, h] at hreq
    · rw [initiateImageUpload_trace c imageType h] at hreq
      rcases List.mem_singleton.mp hreq with rfl
      simp
  · intro c videoPath caption cover share
    unfold reelParams
    refine List.mem_append.mpr (Or.inl (List.mem_append.mpr (Or.inl ?_)))
    simp
  · intro c imagePath initOutcome initParse fileContents putOutcome req hreq hput
    by_cases h : c.accessToken = ""
    · simp [LinkedInClient.uploadImage, h] at hreq
    · revert hreq
      unfold LinkedInClient.uploadImage
      rw [if_neg h]
      rcases hinit : c.initiateImageUpload "image" initOutcome initParse with ⟨res, reqs⟩
      have hreqs : reqs = [⟨"POST", AssetUploadURL,
          [("Authorization", "Bearer " ++ c.accessToken),
           ("Content-Type", "application/json")]⟩] := by
        have := initiateImageUpload_trace c "image" h initOutcome initParse
        rw [hinit] at this
        exact this
      subst hreqs
      rcases res with e | ⟨assetURN, uploadUrl⟩
      · intro hreq
        rcases List.mem_singleton.mp hreq with rfl
        simp at hput
      · rcases uploadUrl with _ | u
        · intro hreq
          rcases List.mem_singleton.mp hreq with rfl
          simp at hput
        · rcases fileContents with e | bytes
          · intro hreq
            rcases List.mem_singleton.mp hreq with rfl
            simp at hput
          · rcases putOutcome with e | r
            · intro hreq
              rcases List.mem_cons.mp hreq with rfl | hreq
              · simp at hput
              · rcases List.mem_cons.mp hreq with rfl | hreq
                · rfl
                · simp at hreq
            · by_cases hst : r.status ≠ 200 ∧ r.status ≠ 201 ∧ r.status ≠ 204
              · simp only [if_pos hst]
                intro hreq
                rcases List.mem_cons.mp hreq with rfl | hreq
                · simp at hput
                · rcases List.mem_cons.mp hreq with rfl | hreq
                  · rfl
                  · simp at hreq
              · simp only [if_neg hst]
                intro hreq
                rcases List.mem_cons.mp hreq with rfl | hreq
                · simp at hput
                · rcases List.mem_cons.mp hreq with rfl | hreq
                  · rfl
                  · simp at hreq

/-- C6 (witness): the amended theorem applied at concrete requests. -/
theorem C6_auth_per_request_witness :
    (("Authorization", "Bearer " ++ "bt")
        ∈ (HttpRequest.mk "POST" ("http://t" ++ "/tweets")
            [("Authorization", "Bearer " ++ "bt"),
             ("Content-Type", "application/json")]).headers) ∧
    (("access_token", "tok") ∈ reelParams ⟨"a", "s", "r", "tok", "u"⟩ "v.mp4" "cap" "" false) ∧
    ((⟨"PUT", "https://upload.example/u", []⟩ : HttpRequest).headers = []) := by
  refine ⟨?_, ?_, ?_⟩
  · exact C6_auth_per_request.1 ⟨"bt", "k", "s", "at", "ts", "http://t"⟩ "hi"
      (.response ⟨200, "b"⟩) (.ok ⟨"1", "hi", "", "", "", ""⟩)
      _ (by rw [createTweet_trace]; exact List.mem_singleton.mpr rfl)
  · exact C6_auth_per_request.2.2.2.2.1 ⟨"a", "s", "r", "tok", "u"⟩ "v.mp4" "cap" "" false
  · exact C6_auth_per_request.2.2.2.2.2 ⟨"cid", "sec", "uri", "tok", "u1"⟩ "img.png"
      (.response ⟨200, "ibody"⟩)
      ⟨none, true, true, some "https://upload.example/u", some "urn:li:a"⟩
      (.ok "bytes") (.response ⟨201, ""⟩)
      ⟨"PUT", "https://upload.example/u", []⟩
      (by rw [show (LinkedInClient.uploadImage ⟨"cid", "sec", "uri", "tok", "u1"⟩ "img.png"
          (.response ⟨200, "ibody"⟩)
          ⟨none, true, true, some "https://upload.example/u", some "urn:li:a"⟩
          (.ok "bytes") (.response ⟨201, ""⟩)).2
        = [⟨"POST", AssetUploadURL,
            [("Authorization", "Bearer tok"), ("Content-Type", "application/json")]⟩,
           ⟨"PUT", "https://upload.example/u", []⟩] from rfl]
          exact List.mem_cons.mpr (Or.inr (List.mem_singleton.mpr rfl)))
      rfl

/-- a poll outcome with its HTTP status erased: waitForMediaProcessing
never reads the status code of a poll response, which this normal form
makes provable. -/
def pollIgnoringStatus : PollOutcome → PollOutcome
  | .transportErr e => .transportErr e
  | .response _ b je sf => .response 0 b je sf

theorem waitPoll_ignores_status (f g : Nat → PollOutcome)
    (h : ∀ i, pollIgnoringStatus (f i) = pollIgnoringStatus (g i)) :
    ∀ fuel i, waitPoll f i fuel = waitPoll g i fuel := by
  intro fuel
  induction fuel with
  | zero => intro i; rfl
  | succ n ih =>
    intro i
    rcases hf : f i with e | ⟨st, b, je, sf⟩
    · rcases hg : g i with e' | ⟨st', b', je', sf'⟩
      · have hi := h i
        rw [hf, hg] at hi
        simp only [pollIgnoringStatus, PollOutcome.transportErr.injEq] at hi
        subst hi
        simp only [waitPoll]
        rw [hf, hg]
      · have hi := h i
        rw [hf, hg] at hi
        simp [pollIgnoringStatus] at hi
    · rcases hg : g i with e' | ⟨st', b', je', sf'⟩
      · have hi := h i
        rw [hf, hg] at hi
        simp [pollIgnoringStatus] at hi
      · have hi := h i
        rw [hf, hg] at hi
        simp only [pollIgnoringStatus, PollOutcome.response.injEq, true_and] at hi
        obtain ⟨hb, hje, hsf⟩ := hi
        subst hb; subst hje; subst hsf
        simp only [waitPoll]
        rw [hf, hg]
        cases je with
        | some e => rfl
        | none =>
          cases sf with
          | none => rfl
          | some s =>
            by_cases hF : s = "FINISHED"
            · simp [hF]
            · by_cases hE : s = "ERROR"
              · simp [hF, hE]
              · simp [hF, hE, ih (i + 1)]

/-- C5 (counterexample).  In PostReel, the status-poll response has a
non-2xx HTTP status (500), yet the operation does not abort: the helper
only inspects the JSON status_code field ("FINISHED" here), so the
publish request - a request of a subsequent step - is still issued and
the operation succeeds. -/
theorem C5_counterexample :
    InstagramClient.postReel ⟨"app", "sec", "uri", "tok", "u1"⟩ "v.mp4" "cap" "" false
        (.response 200 "cbody" none ⟨"c1", "surl"⟩)
        (fun _ => PollOutcome.response 500 "\x7b\"status_code\":\"FINISHED\"\x7d"
            none (some "FINISHED"))
        (.response 200 "pbody" none ⟨"p1", ""⟩)
      = (.ok ⟨"p1", ""⟩,
         [⟨"POST", "u1" ++ "/media",
            [("media_type", "REELS"), ("video_url", "v.mp4"), ("caption", "cap"),
             ("access_token", "tok")]⟩,
          ⟨"GET", "surl", []⟩,
          ⟨"POST", "u1" ++ "/media_publish",
            [("creation_id", "c1"), ("access_token", "tok")]⟩]) := by
  rfl

/-- C5 (amended).  In the media upload/publish handshake, any non-2xx
response at a container-creation, file-upload (PUT) or publish step
aborts immediately with an error wrapping the response body, and no
request of any subsequent step is issued; the status-poll requests are
the exception: their HTTP status codes are never inspected (only the
JSON status_code field is), and exhausted polling yields the timeout
error of C1. -/
theorem C5_nonsuccess_aborts_handshake :
    (∀ (c : InstagramClient) videoPath caption cover share st body derr media polls publish,
        c.accessToken ≠ "" → c.userID ≠ "" → (st < 200 ∨ 300 ≤ st) →
        c.postReel videoPath caption cover share (.response st body derr media) polls publish
          = (.error ("failed to create reel container: " ++ body ++ ", status: "
                ++ toString st),
             [⟨"POST", c.userID ++ "/media", reelParams c videoPath caption cover share⟩]) ∧
        containsStr ("failed to create reel container: " ++ body ++ ", status: "
            ++ toString st) body) ∧
    (∀ (c : InstagramClient) videoPath caption cover share body cid polls st2 b2 derr2 m2,
        c.accessToken ≠ "" → c.userID ≠ "" → (st2 < 200 ∨ 300 ≤ st2) →
        c.postReel videoPath caption cover share (.response 200 body none ⟨cid, ""⟩)
            polls (.response st2 b2 derr2 m2)
          = (.error ("failed to publish reel: " ++ b2 ++ ", status: " ++ toString st2),
             [⟨"POST", c.userID ++ "/media", reelParams c videoPath caption cover share⟩,
              ⟨"POST", c.userID ++ "/media_publish",
                [("creation_id", cid), ("access_token", c.accessToken)]⟩]) ∧
        containsStr ("failed to publish reel: " ++ b2 ++ ", status: " ++ toString st2) b2) ∧
    (∀ (c : LinkedInClient) imagePath st body parse fileContents putOutcome,
        c.accessToken ≠ "" → (st < 200 ∨ 300 ≤ st) →
        c.uploadImage imagePath (.response ⟨st, body⟩) parse fileContents putOutcome
          = (.error ("failed to initiate image upload: " ++ body ++ ", status: "
                ++ toString st),
             [⟨"POST", AssetUploadURL,
                [("Authorization", "Bearer " ++ c.accessToken),
                 ("Content-Type", "application/json")]⟩]) ∧
        containsStr ("failed to initiate image upload: " ++ body ++ ", status: "
            ++ toString st) body) ∧
    (∀ (c : LinkedInClient) imagePath ibody u a bytes st2 b2,
        c.accessToken ≠ "" → (st2 < 200 ∨ 300 ≤ st2) →
        c.uploadImage imagePath (.response ⟨200, ibody⟩) ⟨none, true, true, some u, some a⟩
            (.ok bytes) (.response ⟨st2, b2⟩)
          = (.error ("failed to upload image: " ++ b2 ++ ", status: " ++ toString st2),
             [⟨"POST", AssetUploadURL,
                [("Authorization", "Bearer " ++ c.accessToken),
                 ("Content-Type", "application/json")]⟩,
              ⟨"PUT", u, []⟩]) ∧
        containsStr ("failed to upload image: " ++ b2 ++ ", status: " ++ toString st2) b2) ∧
    (∀ f g : Nat → PollOutcome,
        (∀ i, pollIgnoringStatus (f i) = pollIgnoringStatus (g i)) →
        waitForMediaProcessing f = waitForMediaProcessing g) := by
  refine ⟨?_, ?_, ?_, ?_, ?_⟩
  · intro c videoPath caption cover share st body derr media polls publish h1 h2 hst
    have hcond : ¬ (c.accessToken = "" ∨ c.userID = "") := by tauto
    have hne : st ≠ 200 := by omega
    refine ⟨by simp [InstagramClient.postReel, hcond, hne], ?_⟩
    exact containsStr_intro "failed to create reel container: " _
      (", status: " ++ toString st) _ (by simp [String.data_append, List.append_assoc])
  · intro c videoPath caption cover share body cid polls st2 b2 derr2 m2 h1 h2 hst
    have hcond : ¬ (c.accessToken = "" ∨ c.userID = "") := by tauto
    have hne : st2 ≠ 200 := by omega
    refine ⟨?_, containsStr_intro "failed to publish reel: " _
      (", status: " ++ toString st2) _ (by simp [String.data_append, List.append_assoc])⟩
    cases derr2 with
    | some e => simp [InstagramClient.postReel, hcond, hne, waitForMediaProcessing]
    | none => simp [InstagramClient.postReel, hcond, hne, waitForMediaProcessing]
  · intro c imagePath st body parse fileContents putOutcome h hst
    have hne : st ≠ 200 := by omega
    refine ⟨?_, containsStr_intro "failed to initiate image upload: " _
      (", status: " ++ toString st) _ (by simp [String.data_append, List.append_assoc])⟩
    simp [LinkedInClient.uploadImage, LinkedInClient.initiateImageUpload, h, hne]
  · intro c imagePath ibody u a bytes st2 b2 h hst
    have hne : ¬ (st2 = 200 ∨ st2 = 201 ∨ st2 = 204) := by omega
    have hcond : st2 ≠ 200 ∧ st2 ≠ 201 ∧ st2 ≠ 204 := by omega
    refine ⟨?_, containsStr_intro "failed to upload image: " _
      (", status: " ++ toString st2) _ (by simp [String.data_append, List.append_assoc])⟩
    simp [LinkedInClient.uploadImage, LinkedInClient.initiateImageUpload, h, hcond]
  · intro f g h
    exact waitPoll_ignores_status f g h 30 0

/-- C5 (witness): the amended theorem applied at concrete non-2xx
responses at each step. -/
theorem C5_nonsuccess_witness :
    (InstagramClient.postReel ⟨"app", "sec", "uri", "tok", "u1"⟩ "v.mp4" "cap" "" false
        (.response 500 "cbody" none ⟨"c1", "surl"⟩)
        (fun _ => PollOutcome.transportErr "unused")
        (.response 200 "pbody" none ⟨"p1", ""⟩)).1
      = .error ("failed to create reel container: " ++ "cbody" ++ ", status: "
          ++ toString (500 : Nat)) ∧
    (LinkedInClient.uploadImage ⟨"cid", "sec", "uri", "tok", "u1"⟩ "img.png"
        (.response ⟨200, "ibody"⟩) ⟨none, true, true, some "u", some "a"⟩
        (.ok "bytes") (.response ⟨400, "bad"⟩)).2
      = [⟨"POST", AssetUploadURL,
          [("Authorization", "Bearer " ++ "tok"), ("Content-Type", "application/json")]⟩,
         ⟨"PUT", "u", []⟩] ∧
    waitForMediaProcessing (fun _ => PollOutcome.response 500 "w" none (some "IN_PROGRESS"))
      = waitForMediaProcessing (fun _ => PollOutcome.response 200 "w" none (some "IN_PROGRESS")) := by
  refine ⟨?_, ?_, ?_⟩
  · have h := (C5_nonsuccess_aborts_handshake.1 ⟨"app", "sec", "uri", "tok", "u1"⟩
      "v.mp4" "cap" "" false 500 "cbody" none ⟨"c1", "surl"⟩
      (fun _ => PollOutcome.transportErr "unused")
      (.response 200 "pbody" none ⟨"p1", ""⟩)
      (by decide) (by decide) (by omega)).1
    rw [h]
  · have h := (C5_nonsuccess_aborts_handshake.2.2.2.1 ⟨"cid", "sec", "uri", "tok", "u1"⟩
      "img.png" "ibody" "u" "a" "bytes" 400 "bad" (by decide) (by omega)).1
    rw [h]
  · exact C5_nonsuccess_aborts_handshake.2.2.2.2 _ _ (fun i => rfl)

/-- when every child container request gets a 200 response carrying id
`ids j` and no status URL, the child loop collects exactly those ids, in
input order, and issues exactly one container request per path, in input
order. -/
theorem postCarouselLoop_ok (c : InstagramClient) (children : Nat → IgOutcome)
    (childPolls : Nat → Nat → PollOutcome) (ids bodies : Nat → String) :
    ∀ (paths : List String) (i0 : Nat),
      (∀ j, j < paths.length → children (i0 + j)
          = .response 200 (bodies (i0 + j)) none ⟨ids (i0 + j), ""⟩) →
      c.postCarouselLoop children childPolls paths i0
        = (.ok ((List.range paths.length).map (fun j => ids (i0 + j))),
           paths.map (childRequest c)) := by
  intro paths
  induction paths with
  | nil => intro i0 h; rfl
  | cons p rest ih =>
    intro i0 h
    have h0 := h 0 (by simp)
    rw [Nat.add_zero] at h0
    have hrest : ∀ j, j < rest.length → children (i0 + 1 + j)
        = .response 200 (bodies (i0 + 1 + j)) none ⟨ids (i0 + 1 + j), ""⟩ := by
      intro j hj
      have := h (j + 1) (by simp; omega)
      rwa [show i0 + (j + 1) = i0 + 1 + j by omega] at this
    have hrange : (List.range (rest.length + 1)).map (fun j => ids (i0 + j))
        = ids i0 :: (List.range rest.length).map (fun j => ids (i0 + 1 + j)) := by
      rw [List.range_succ_eq_map, List.map_cons, List.map_map]
      refine congrArg₂ _ (by rw [Nat.add_zero]) ?_
      refine List.map_congr_left ?_
      intro a _
      simp only [Function.comp_apply]
      congr 1
      omega
    simp only [InstagramClient.postCarouselLoop]
    rw [h0, ih (i0 + 1) hrest]
    simp [hrange]

/-- C10.  In PostCarousel, when every child container request succeeds
(200, id `ids j`, no status URL): the i-th issued request is the child
container request for the i-th media path, using media_type "VIDEO" with
parameter "video_url" exactly when the lower-cased path ends in ".mp4"
and media_type "IMAGE" with "image_url" otherwise; and the next request
is the carousel container request whose `children` parameter joins the
returned child ids with commas in input order. -/
theorem C10_carousel_requests (c : InstagramClient)
    (mediaPaths : List String) (caption : String)
    (children : Nat → IgOutcome) (childPolls : Nat → Nat → PollOutcome)
    (carousel publish : IgOutcome) (ids bodies : Nat → String)
    (hc1 : c.accessToken ≠ "") (hc2 : c.userID ≠ "")
    (hresp : ∀ j, j < mediaPaths.length → children j
        = .response 200 (bodies j) none ⟨ids j, ""⟩) :
    (∀ i p, mediaPaths.get? i = some p →
        (c.postCarousel mediaPaths caption children childPolls carousel publish).2.get? i
          = some (if hasSuffix (toLowerStr p) ".mp4"
              then ⟨"POST", c.userID ++ "/media",
                [("media_type", "VIDEO"), ("video_url", p),
                 ("is_carousel_item", "true"), ("access_token", c.accessToken)]⟩
              else ⟨"POST", c.userID ++ "/media",
                [("media_type", "IMAGE"), ("image_url", p),
                 ("is_carousel_item", "true"), ("access_token", c.accessToken)]⟩)) ∧
    ((c.postCarousel mediaPaths caption children childPolls carousel publish).2.get?
          mediaPaths.length
        = some ⟨"POST", c.userID ++ "/media",
            [("media_type", "CAROUSEL"), ("caption", caption),
             ("access_token", c.accessToken),
             ("children", String.intercalate ","
                ((List.range mediaPaths.length).map ids))]⟩) := by
  have hcond : ¬ (c.accessToken = "" ∨ c.userID = "") := by tauto
  have hloop := postCarouselLoop_ok c children childPolls ids bodies mediaPaths 0
    (fun j hj => by simpa using hresp j hj)
  simp only [Nat.zero_add] at hloop
  have hshape : ∃ t,
      (c.postCarousel mediaPaths caption children childPolls carousel publish).2
        = mediaPaths.map (childRequest c)
          ++ (⟨"POST", c.userID ++ "/media",
              [("media_type", "CAROUSEL"), ("caption", caption),
               ("access_token", c.accessToken),
               ("children", String.intercalate ","
                  ((List.range mediaPaths.length).map ids))]⟩ :: t) := by
    simp only [InstagramClient.postCarousel, if_neg hcond]
    rw [hloop]
    rcases carousel with e | ⟨st, body, derr, media⟩
    · exact ⟨[], by simp⟩
    · by_cases hst : st ≠ 200
      · exact ⟨[], by simp [hst]⟩
      · cases derr with
        | some e => exact ⟨[], by simp [hst]⟩
        | none =>
          rcases publish with e2 | ⟨st2, b2, derr2, m2⟩
          · exact ⟨[⟨"POST", c.userID ++ "/media_publish",
              [("creation_id", media.id), ("access_token", c.accessToken)]⟩],
              by simp [hst]⟩
          · by_cases hst2 : st2 ≠ 200
            · exact ⟨[⟨"POST", c.userID ++ "/media_publish",
                [("creation_id", media.id), ("access_token", c.accessToken)]⟩],
                by simp [hst, hst2]⟩
            · cases derr2 with
              | some e2 => exact ⟨[⟨"POST", c.userID ++ "/media_publish",
                  [("creation_id", media.id), ("access_token", c.accessToken)]⟩],
                  by simp [hst, hst2]⟩
              | none => exact ⟨[⟨"POST", c.userID ++ "/media_publish",
                  [("creation_id", media.id), ("access_token", c.accessToken)]⟩],
                  by simp [hst, hst2]⟩
  obtain ⟨t, ht⟩ := hshape
  constructor
  · intro i p hp
    have hi : i < mediaPaths.length := by
      by_contra hge
      rw [List.get?_eq_none.mpr (by omega)] at hp
      cases hp
    rw [ht, List.get?_append (by simpa using hi), List.get?_map, hp]
    simp only [Option.map_some']
    refine congrArg _ ?_
    by_cases hmp4 : hasSuffix (toLowerStr p) ".mp4"
    · simp [childRequest, hmp4]
    · simp [childRequest, hmp4]
  · rw [ht, List.get?_append_right (by simp), List.length_map, Nat.sub_self,
      List.get?_cons_zero]

/-- C10 (witness): a carousel of one uppercase-suffixed video and one
image has its two child requests in order (VIDEO/video_url first,
IMAGE/image_url second) and joins the returned ids as "id0,id1". -/
theorem C10_carousel_witness :
    ((InstagramClient.postCarousel ⟨"app", "sec", "uri", "tok", "u1"⟩
        ["a.MP4", "b.jpg"] "cap"
        (fun j => .response 200 "b" none ⟨"id" ++ toString j, ""⟩)
        (fun _ _ => PollOutcome.transportErr "unused")
        (.response 200 "cb" none ⟨"car1", ""⟩)
        (.response 200 "pb" none ⟨"pub1", ""⟩)).2.get? 0
      = some ⟨"POST", "u1" ++ "/media",
          [("media_type", "VIDEO"), ("video_url", "a.MP4"),
           ("is_carousel_item", "true"), ("access_token", "tok")]⟩) ∧
    ((InstagramClient.postCarousel ⟨"app", "sec", "uri", "tok", "u1"⟩
        ["a.MP4", "b.jpg"] "cap"
        (fun j => .response 200 "b" none ⟨"id" ++ toString j, ""⟩)
        (fun _ _ => PollOutcome.transportErr "unused")
        (.response 200 "cb" none ⟨"car1", ""⟩)
        (.response 200 "pb" none ⟨"pub1", ""⟩)).2.get? 1
      = some ⟨"POST", "u1" ++ "/media",
          [("media_type", "IMAGE"), ("image_url", "b.jpg"),
           ("is_carousel_item", "true"), ("access_token", "tok")]⟩) ∧
    ((InstagramClient.postCarousel ⟨"app", "sec", "uri", "tok", "u1"⟩
        ["a.MP4", "b.jpg"] "cap"
        (fun j => .response 200 "b" none ⟨"id" ++ toString j, ""⟩)
        (fun _ _ => PollOutcome.transportErr "unused")
        (.response 200 "cb" none ⟨"car1", ""⟩)
        (.response 200 "pb" none ⟨"pub1", ""⟩)).2.get? 2
      = some ⟨"POST", "u1" ++ "/media",
          [("media_type", "CAROUSEL"), ("caption", "cap"), ("access_token", "tok"),
           ("children", String.intercalate "," ["id" ++ toString 0, "id" ++ toString 1])]⟩) := by
  have h := C10_carousel_requests ⟨"app", "sec", "uri", "tok", "u1"⟩
    ["a.MP4", "b.jpg"] "cap"
    (fun j => .response 200 "b" none ⟨"id" ++ toString j, ""⟩)
    (fun _ _ => PollOutcome.transportErr "unused")
    (.response 200 "cb" none ⟨"car1", ""⟩)
    (.response 200 "pb" none ⟨"pub1", ""⟩)
    (fun j => "id" ++ toString j) (fun _ => "b")
    (by decide) (by decide) (fun j hj => rfl)
  refine ⟨?_, ?_, ?_⟩
  · rw [h.1 0 "a.MP4" rfl, if_pos (by decide)]
  · rw [h.1 1 "b.jpg" rfl, if_neg (by decide)]
  · have h2 := h.2
    simpa using h2

end Postyl
